import Mathlib

/-!
Verification of the lydia payment-orchestration service against its
specification.  The definitions below are shallow embeddings of the
JavaScript source:

* src/payman-service/index.mjs — HTTP handlers (oauth exchange, charge,
  payout) with their validation and free-text outcome classification;
* src/unnamed/part_002 — TokenManager (tokenManager.mjs): token refresh
  policy, the refreshing flag, background renewal scheduling.

Strings are modelled by Lean String, JS substring search
(String.prototype.includes, case sensitive) by containsSeg below, JS
timestamps (milliseconds) by Nat, and JS falsiness of optional string
fields by jsFalsy.  The cooperative single-threaded async execution of
getToken / refreshToken is modelled by an explicit interleaving machine
whose atomic steps are the synchronous code runs between await points.
-/

/-! ## String utilities: JS String.prototype.includes -/

/-- Boolean test that the first list is a leading segment of the second. -/
def leadsWith : List Char → List Char → Bool
  | [], _ => true
  | _ :: _, [] => false
  | p :: ps, t :: ts => p == t && leadsWith ps ts

/-- Boolean test that the pattern (second argument) appears as a contiguous
segment of the text (first argument); mirrors JS includes. -/
def containsSeg : List Char → List Char → Bool
  | [], pat => pat.isEmpty
  | c :: rest, pat => leadsWith pat (c :: rest) || containsSeg rest pat

/-- Embedding of JS text.includes(pat), a case-sensitive substring test. -/
def strIncludes (text pat : String) : Bool := containsSeg text.data pat.data

/-- JS truthiness of an optional string field of a JSON body: undefined,
null and the empty string are falsy. -/
def jsFalsy : Option String → Bool
  | none => true
  | some s => s == ""

/-! ## Provider response artifacts (free-text segments) -/

/-- Embedding of one labeled free-text segment of a provider response
(result.artifacts elements in index.mjs); content none models an absent
field, content (some "") an empty string — both falsy in JS. -/
structure Artifact where
  name : Option String
  content : Option String
deriving DecidableEq

/-- Truthiness of artifact.content, the guard used by every classification
loop in index.mjs. -/
def hasContent (a : Artifact) : Bool :=
  match a.content with
  | none => false
  | some c => !(c == "")

/-- Content of an artifact as a plain string (only read under hasContent). -/
def contentStr (a : Artifact) : String := a.content.getD ""

/-! ## Outcome classifier vocabularies (index.mjs lines 306-322, 392-397) -/

/-- Positive vocabulary of the charge classifier, in source order
(index.mjs lines 306-312). -/
def chargePositive (c : String) : Bool :=
  strIncludes c "Transaction completed" || strIncludes c "Memo" ||
  strIncludes c "Payment Processed" || strIncludes c "Payment Initiated" ||
  strIncludes c "payment sent"

/-- Negative vocabulary of the charge classifier, in source order
(index.mjs lines 317-322). -/
def negativeVocab (c : String) : Bool :=
  strIncludes c "error" || strIncludes c "failed" ||
  strIncludes c "difficulty" || strIncludes c "insufficient funds" ||
  strIncludes c "unable"

/-- Positive vocabulary of the payout classifier (index.mjs lines 392-396);
it omits the phrase about a sent payment that the charge list has, and the
payout loop has no negative check at all. -/
def payoutPositive (c : String) : Bool :=
  strIncludes c "Transaction completed" || strIncludes c "Memo" ||
  strIncludes c "Payment Processed" || strIncludes c "Payment Initiated"

/-- Embedding of the charge outcome loop (index.mjs lines 303-328): scan
artifacts in order; an artifact with truthy content matching the positive
vocabulary sets success and breaks; otherwise one matching the negative
vocabulary sets failure and breaks; default is failure. -/
def classifyCharge : List Artifact → Bool
  | [] => false
  | a :: rest =>
    if hasContent a && chargePositive (contentStr a) then true
    else if hasContent a && negativeVocab (contentStr a) then false
    else classifyCharge rest

/-- Embedding of the payout outcome loop (index.mjs lines 389-402): scan
artifacts in order; an artifact with truthy content matching the payout
positive vocabulary sets success and breaks; there is no negative check;
default is failure. -/
def classifyPayout : List Artifact → Bool
  | [] => false
  | a :: rest =>
    if hasContent a && payoutPositive (contentStr a) then true
    else classifyPayout rest

/-- Charge outcome including the result?.artifacts guard: a response with
no artifacts collection classifies as failure. -/
def chargeOutcome : Option (List Artifact) → Bool
  | none => false
  | some l => classifyCharge l

/-- Payout outcome including the result?.artifacts guard. -/
def payoutOutcome : Option (List Artifact) → Bool
  | none => false
  | some l => classifyPayout l

/-! ## Helper lemmas about the classifiers -/

/-- Payout positive vocabulary is contained in the charge positive
vocabulary. -/
theorem payoutPositive_imp_chargePositive (c : String)
    (h : payoutPositive c = true) : chargePositive c = true := by
  simp only [payoutPositive, Bool.or_eq_true] at h
  simp only [chargePositive, Bool.or_eq_true]
  tauto

/-- Scanning past an artifact that matches neither vocabulary leaves the
charge classification unchanged. -/
theorem classifyCharge_skip (a : Artifact) (rest : List Artifact)
    (hpos : hasContent a = true → chargePositive (contentStr a) = false)
    (hneg : hasContent a = true → negativeVocab (contentStr a) = false) :
    classifyCharge (a :: rest) = classifyCharge rest := by
  cases hca : hasContent a with
  | false => simp [classifyCharge, hca]
  | true => simp [classifyCharge, hca, hpos hca, hneg hca]

/-- Scanning past an artifact that does not match the payout positive
vocabulary leaves the payout classification unchanged. -/
theorem classifyPayout_skip (a : Artifact) (rest : List Artifact)
    (hpos : hasContent a = true → payoutPositive (contentStr a) = false) :
    classifyPayout (a :: rest) = classifyPayout rest := by
  cases hca : hasContent a with
  | false => simp [classifyPayout, hca]
  | true => simp [classifyPayout, hca, hpos hca]

/-- Charge classification succeeds whenever some artifact matches the
positive vocabulary and no artifact matches the negative vocabulary. -/
theorem classifyCharge_true_of_pos (arts : List Artifact)
    (hnoneg : ∀ a ∈ arts, hasContent a = true → negativeVocab (contentStr a) = false)
    (hpos : ∃ a ∈ arts, hasContent a = true ∧ chargePositive (contentStr a) = true) :
    classifyCharge arts = true := by
  induction arts with
  | nil => simp at hpos
  | cons a rest ih =>
    by_cases h1 : hasContent a = true ∧ chargePositive (contentStr a) = true
    · simp [classifyCharge, h1.1, h1.2]
    · have hskip : classifyCharge (a :: rest) = classifyCharge rest := by
        refine classifyCharge_skip a rest ?_ (hnoneg a (List.mem_cons_self a rest))
        intro hca
        cases hcp : chargePositive (contentStr a) with
        | false => rfl
        | true => exact absurd ⟨hca, hcp⟩ h1
      rw [hskip]
      refine ih (fun x hx => hnoneg x (List.mem_cons_of_mem a hx)) ?_
      rcases hpos with ⟨a', ha', hprop⟩
      rcases List.mem_cons.mp ha' with rfl | hm
      · exact absurd hprop h1
      · exact ⟨a', hm, hprop⟩

/-- Payout classification succeeds whenever some artifact matches the
payout positive vocabulary. -/
theorem classifyPayout_true_of_pos (arts : List Artifact)
    (hpos : ∃ a ∈ arts, hasContent a = true ∧ payoutPositive (contentStr a) = true) :
    classifyPayout arts = true := by
  induction arts with
  | nil => simp at hpos
  | cons a rest ih =>
    by_cases h1 : hasContent a = true ∧ payoutPositive (contentStr a) = true
    · simp [classifyPayout, h1.1, h1.2]
    · have hskip : classifyPayout (a :: rest) = classifyPayout rest := by
        refine classifyPayout_skip a rest ?_
        intro hca
        cases hcp : payoutPositive (contentStr a) with
        | false => rfl
        | true => exact absurd ⟨hca, hcp⟩ h1
      rw [hskip]
      refine ih ?_
      rcases hpos with ⟨a', ha', hprop⟩
      rcases List.mem_cons.mp ha' with rfl | hm
      · exact absurd hprop h1
      · exact ⟨a', hm, hprop⟩

/-- Charge classification fails when no artifact matches the positive
vocabulary and none matches the negative vocabulary. -/
theorem classifyCharge_false_of_noevidence (arts : List Artifact)
    (h : ∀ a ∈ arts, hasContent a = true →
        chargePositive (contentStr a) = false ∧ negativeVocab (contentStr a) = false) :
    classifyCharge arts = false := by
  induction arts with
  | nil => rfl
  | cons a rest ih =>
    have ha := h a (List.mem_cons_self a rest)
    rw [classifyCharge_skip a rest (fun hca => (ha hca).1) (fun hca => (ha hca).2)]
    exact ih (fun x hx => h x (List.mem_cons_of_mem a hx))

/-- Payout classification fails when no artifact matches the payout
positive vocabulary. -/
theorem classifyPayout_false_of_nopos (arts : List Artifact)
    (hnopos : ∀ a ∈ arts, hasContent a = true → payoutPositive (contentStr a) = false) :
    classifyPayout arts = false := by
  induction arts with
  | nil => rfl
  | cons a rest ih =>
    rw [classifyPayout_skip a rest (hnopos a (List.mem_cons_self a rest))]
    exact ih (fun x hx => hnopos x (List.mem_cons_of_mem a hx))

/-! ## C1: negative vocabulary does not override positive evidence -/

/-- C1 counterexample: the claim says a charge response containing a
negative-vocabulary artifact classifies as failure regardless of positive
matches; but for a response whose first artifact matches the positive
vocabulary and whose second matches the negative vocabulary, the charge
loop breaks at the positive artifact and returns success. -/
theorem c1_counterexample :
    negativeVocab "insufficient funds" = true ∧
    classifyCharge [⟨some "response", some "Payment Processed"⟩,
                    ⟨some "response", some "insufficient funds"⟩] = true := by
  constructor
  · decide
  · decide

/-- C1 amended: a negative-vocabulary artifact forces the charge outcome
to failure only when no artifact at or before it matches the positive
vocabulary (the loop checks the positive vocabulary first within each
artifact and stops at the first artifact matching either vocabulary). -/
theorem c1_negative_forces_failure (pre : List Artifact) (a : Artifact)
    (post : List Artifact)
    (hpre : ∀ b ∈ pre, hasContent b = true → chargePositive (contentStr b) = false)
    (hc : hasContent a = true)
    (hneg : negativeVocab (contentStr a) = true)
    (hpos : chargePositive (contentStr a) = false) :
    classifyCharge (pre ++ a :: post) = false := by
  induction pre with
  | nil => simp [classifyCharge, hc, hneg, hpos]
  | cons b pre ih =>
    have hb : hasContent b = true → chargePositive (contentStr b) = false :=
      hpre b (List.mem_cons_self b pre)
    have hrest : ∀ x ∈ pre, hasContent x = true → chargePositive (contentStr x) = false :=
      fun x hx => hpre x (List.mem_cons_of_mem b hx)
    rw [List.cons_append]
    cases hcb : hasContent b with
    | false => simpa [classifyCharge, hcb] using ih hrest
    | true =>
      cases hnb : negativeVocab (contentStr b) with
      | false => simpa [classifyCharge, hcb, hb hcb, hnb] using ih hrest
      | true => simp [classifyCharge, hcb, hb hcb, hnb]

/-- C1 witness: a neutral artifact, then an artifact reading about
insufficient funds, then a positive artifact; the negative artifact is
reached before any positive one, so the charge outcome is failure. -/
theorem c1_witness :
    classifyCharge ([⟨some "response", some "Looking into it"⟩] ++
      ⟨some "response", some "insufficient funds"⟩ ::
      [⟨some "response", some "Payment Processed"⟩]) = false :=
  c1_negative_forces_failure
    [⟨some "response", some "Looking into it"⟩]
    ⟨some "response", some "insufficient funds"⟩
    [⟨some "response", some "Payment Processed"⟩]
    (by decide) (by decide) (by decide) (by decide)

/-! ## C2: payout ignores the negative vocabulary entirely -/

/-- C2 counterexample: the claim says a payout response containing the
text about insufficient funds classifies as failure even when another
artifact says the payment was initiated; but the payout loop performs no
negative check, so the positive artifact makes the outcome success. -/
theorem c2_counterexample :
    strIncludes "insufficient funds in wallet" "insufficient funds" = true ∧
    classifyPayout [⟨some "response", some "insufficient funds in wallet"⟩,
                    ⟨some "response", some "Payment Initiated"⟩] = true := by
  constructor
  · decide
  · decide

/-- C2 amended: a payout response containing an artifact with the text
about insufficient funds classifies as failure only when no artifact
matches the payout positive vocabulary; the payout loop checks no
negative vocabulary at all. -/
theorem c2_insufficient_funds_payout (arts : List Artifact)
    (hneg : ∃ a ∈ arts, strIncludes (contentStr a) "insufficient funds" = true)
    (hnopos : ∀ a ∈ arts, hasContent a = true → payoutPositive (contentStr a) = false) :
    classifyPayout arts = false :=
  classifyPayout_false_of_nopos arts hnopos

/-- C2 witness: a payout response whose only artifact reports insufficient
funds classifies as failure. -/
theorem c2_witness :
    classifyPayout [⟨some "response", some "insufficient funds in wallet"⟩] = false :=
  c2_insufficient_funds_payout
    [⟨some "response", some "insufficient funds in wallet"⟩]
    (by decide) (by decide)

/-! ## C5: fail-closed default -/

/-- C5: a charge or payout response in which no artifact matches the
positive vocabulary and none matches the negative vocabulary classifies
as failure, including a response with no artifacts collection at all. -/
theorem c5_fail_closed (o : Option (List Artifact))
    (h : ∀ l, o = some l → ∀ a ∈ l, hasContent a = true →
        chargePositive (contentStr a) = false ∧ negativeVocab (contentStr a) = false) :
    chargeOutcome o = false ∧ payoutOutcome o = false := by
  cases o with
  | none => exact ⟨rfl, rfl⟩
  | some l =>
    have hl := h l rfl
    constructor
    · exact classifyCharge_false_of_noevidence l hl
    · show classifyPayout l = false
      refine classifyPayout_false_of_nopos l (fun a ha hca => ?_)
      cases hpp : payoutPositive (contentStr a) with
      | false => rfl
      | true =>
        have := payoutPositive_imp_chargePositive _ hpp
        rw [(hl a ha hca).1] at this
        exact absurd this (by simp)

/-- C5 witness: a response whose single artifact matches neither
vocabulary classifies as failure on both endpoints. -/
theorem c5_witness :
    chargeOutcome (some [⟨some "response", some "Reviewing the request"⟩]) = false ∧
    payoutOutcome (some [⟨some "response", some "Reviewing the request"⟩]) = false :=
  c5_fail_closed (some [⟨some "response", some "Reviewing the request"⟩]) (by decide)

/-! ## C6: positive evidence with no negative evidence -/

/-- C6 counterexample: the claim lists the phrase about a sent payment in
the positive vocabulary for both endpoints, but the payout loop does not
check it: a payout response whose only artifact is that phrase matches the
claimed positive vocabulary, matches no negative vocabulary, and still
classifies as failure. -/
theorem c6_counterexample :
    chargePositive "payment sent" = true ∧
    negativeVocab "payment sent" = false ∧
    classifyPayout [⟨some "response", some "payment sent"⟩] = false := by
  refine ⟨?_, ?_, ?_⟩ <;> decide

/-- C6 amended: with no artifact matching the negative vocabulary, an
artifact matching the positive vocabulary of the respective endpoint
(for charge the full claimed list; for payout the list without the phrase
about a sent payment) makes the outcome success. -/
theorem c6_positive_success (arts : List Artifact)
    (hnoneg : ∀ a ∈ arts, hasContent a = true → negativeVocab (contentStr a) = false) :
    ((∃ a ∈ arts, hasContent a = true ∧ chargePositive (contentStr a) = true) →
      classifyCharge arts = true) ∧
    ((∃ a ∈ arts, hasContent a = true ∧ payoutPositive (contentStr a) = true) →
      classifyPayout arts = true) :=
  ⟨fun hpos => classifyCharge_true_of_pos arts hnoneg hpos,
   fun hpos => classifyPayout_true_of_pos arts hpos⟩

/-- C6 witness: a charge response with the phrase about a sent payment
succeeds, and a payout response with the initiated-payment phrase
succeeds. -/
theorem c6_witness :
    classifyCharge [⟨some "response", some "payment sent"⟩] = true ∧
    classifyPayout [⟨some "response", some "Payment Initiated"⟩] = true :=
  ⟨(c6_positive_success [⟨some "response", some "payment sent"⟩] (by decide)).1
      (by decide),
   (c6_positive_success [⟨some "response", some "Payment Initiated"⟩] (by decide)).2
      (by decide)⟩

/-! ## TokenManager: token record and refresh policy (src/unnamed/part_002) -/

/-- Embedding of the persisted ServiceToken record (tokenManager.mjs,
refreshToken body): timestamps are milliseconds as Nat; the source stores
expiresAt and refreshedAt as ISO strings and compares them through Date,
modelled here directly as the underlying instants.  An expiresAt of 0
models a falsy stored value. -/
structure TokenData where
  accessToken : String
  expiresIn : Nat
  expiresAt : Nat
  refreshedAt : Nat
deriving DecidableEq

/-- Fifteen minutes in milliseconds, the refresh-due window of
shouldRefreshToken (tokenManager.mjs lines 51-61). -/
def fifteenMinutesMs : Nat := 15 * 60 * 1000

/-- Embedding of TokenManager.shouldRefreshToken: due when there is no
token record, or its accessToken or expiresAt is falsy, or the expiry is
within fifteen minutes of now. -/
def shouldRefreshToken : Option TokenData → Nat → Bool
  | none, _ => true
  | some td, now =>
      td.accessToken == "" || td.expiresAt == 0 ||
      decide (td.expiresAt ≤ now + fifteenMinutesMs)

/-- Embedding of the delay computation in TokenManager.startRefreshTimer
(tokenManager.mjs lines 69-70): expiry minus now minus fifteen minutes,
raised to 60000 ms when smaller. -/
def startRefreshDelay (expiresAt now : Int) : Int :=
  let r := expiresAt - now - (15 * 60 * 1000)
  if r < 60000 then 60000 else r

/-- Embedding of TokenManager.startRefreshTimer (tokenManager.mjs lines
63-80): no timer is scheduled when tokenData or its expiresAt is falsy;
otherwise the timer fires after startRefreshDelay. -/
def startRefreshTimerDelay : Option TokenData → Nat → Option Int
  | none, _ => none
  | some td, now =>
      if td.expiresAt == 0 then none
      else some (startRefreshDelay (td.expiresAt : Int) (now : Int))

/-- Embedding of the token record built by a successful refresh
(tokenManager.mjs lines 110-118): expiry is now plus expiresIn seconds;
the caller resolves a missing provider expiresIn to 3600 before this. -/
def mkRefreshedToken (tok : String) (expiresIn now : Nat) : TokenData :=
  { accessToken := tok, expiresIn := expiresIn
    expiresAt := now + expiresIn * 1000, refreshedAt := now }

/-- Delay scheduled by the background self-reschedule path.  In the timer
callback (tokenManager.mjs lines 74-79) refreshToken() is started but not
awaited, and startRefreshTimer() is invoked synchronously right after;
refreshToken mutates tokenData only after its provider call resolves, so
the reschedule reads the token record as it was when the timer fired (the
pre-refresh record), passed here as tokenDataAtFire. -/
def timerCallbackNextDelay (tokenDataAtFire : Option TokenData) (now : Nat) : Option Int :=
  startRefreshTimerDelay tokenDataAtFire now

/-- Delay scheduled at the end of TokenManager.initialize (tokenManager.mjs
lines 14-29): the synchronous refresh is awaited when the loaded record is
due, so the timer is computed from the refreshed record. -/
def initializeScheduleDelay (loaded : Option TokenData) (now : Nat)
    (tok : String) (expiresIn : Nat) : Option Int :=
  startRefreshTimerDelay
    (if shouldRefreshToken loaded now then some (mkRefreshedToken tok expiresIn now)
     else loaded) now

/-- Closed form of the scheduled delay: the floor construct is a max. -/
theorem startRefreshDelay_eq_max (expiresAt now : Int) :
    startRefreshDelay expiresAt now = max 60000 (expiresAt - now - 900000) := by
  simp only [startRefreshDelay, Int.max_def]
  split <;> split <;> omega

/-! ## C7: background refresh scheduling -/

/-- C7 counterexample: when the background timer fires on a token whose
expiry is exactly fifteen minutes away and the refresh will produce a
token living 3600 seconds, the claim says the next delay is the new
expiry minus now minus fifteen minutes, 2700000 ms; but the reschedule
happens before the in-flight refresh completes and reads the pre-refresh
record, yielding the one-minute floor of 60000 ms. -/
theorem c7_counterexample :
    timerCallbackNextDelay (some ⟨"app-token", 3600, 10900000, 9000000⟩) 10000000
      = some 60000 ∧
    ((10000000 + 3600 * 1000 : Int) - 10000000 - 900000) = 2700000 ∧
    (60000 : Int) ≠ 2700000 := by
  refine ⟨?_, ?_, ?_⟩ <;> decide

/-- C7 amended: the delay formula is the claimed expiry minus now minus
fifteen minutes with a one-minute floor, and in the initialize path —
where the refresh is awaited before scheduling — the timer is computed
from the new token record, giving expiresIn seconds times 1000 minus
fifteen minutes, floored at one minute; in the background self-reschedule
path the delay is instead computed from the pre-refresh record. -/
theorem c7_schedule_delay :
    (∀ expiresAt now : Int,
      startRefreshDelay expiresAt now = max 60000 (expiresAt - now - 900000)) ∧
    (∀ (loaded : Option TokenData) (now : Nat) (tok : String) (expiresIn : Nat),
      shouldRefreshToken loaded now = true → 0 < now + expiresIn * 1000 →
      initializeScheduleDelay loaded now tok expiresIn
        = some (max 60000 ((expiresIn : Int) * 1000 - 900000))) := by
  constructor
  · exact startRefreshDelay_eq_max
  · intro loaded now tok expiresIn hdue hpos
    simp only [initializeScheduleDelay, hdue, if_true]
    have hne : ((mkRefreshedToken tok expiresIn now).expiresAt == 0) = false := by
      simp only [mkRefreshedToken, beq_eq_false_iff_ne, ne_eq]
      omega
    simp only [startRefreshTimerDelay, hne, if_false, mkRefreshedToken,
      startRefreshDelay_eq_max, Option.some.injEq]
    have harith : ((now + expiresIn * 1000 : Nat) : Int) - (now : Int) - 900000
        = (expiresIn : Int) * 1000 - 900000 := by push_cast; ring
    rw [harith]
    simp only [mkRefreshedToken] at hne
    simp [hne]

/-- C7 witness: initializing with no stored token at time 500 and a
provider token living 3600 seconds schedules the next refresh 2700000 ms
out. -/
theorem c7_witness :
    initializeScheduleDelay none 500 "app-token" 3600 = some 2700000 :=
  (c7_schedule_delay.2 none 500 "app-token" 3600 (by decide) (by decide)).trans
    (by decide)

/-! ## Payee resolution (index.mjs lines 107-195) -/

/-- Hex digit as accepted by the payee identifier pattern in index.mjs. -/
def isHexDigit (c : Char) : Bool :=
  (decide ('0' ≤ c) && decide (c ≤ '9')) || (decide ('a' ≤ c) && decide (c ≤ 'f'))

/-- Consume exactly n hex digits, returning the remaining characters. -/
def takeHexRun : Nat → List Char → Option (List Char)
  | 0, l => some l
  | _ + 1, [] => none
  | n + 1, c :: rest => if isHexDigit c then takeHexRun n rest else none

/-- Consume a single dash character. -/
def takeDash : List Char → Option (List Char)
  | '-' :: rest => some rest
  | _ => none

/-- Consume n hex digits followed by a dash. -/
def hexChunkDash (n : Nat) (l : List Char) : Option (List Char) :=
  (takeHexRun n l).bind takeDash

/-- Match the tail of the payee identifier pattern after the pd- lead:
eight hex digits and a dash, three groups of four hex digits each followed
by a dash, then twelve hex digits. -/
def matchPdTail (l : List Char) : Bool :=
  match ((((hexChunkDash 8 l).bind (hexChunkDash 4)).bind
      (hexChunkDash 4)).bind (hexChunkDash 4)).bind (takeHexRun 12) with
  | some _ => true
  | none => false

/-- Decide whether the full payee identifier pattern of index.mjs
(line 141) matches at the head of the character list. -/
def matchPdIdAt : List Char → Bool
  | 'p' :: 'd' :: '-' :: rest => matchPdTail rest
  | _ => false

/-- Length in characters of a matched payee identifier. -/
def pdIdLen : Nat := 39

/-- First match of the payee identifier pattern anywhere in the text,
returning the matched identifier; embeds content.match(idPattern) with the
first element of the match list taken. -/
def findPdId : List Char → Option String
  | [] => none
  | c :: rest =>
    if matchPdIdAt (c :: rest) then some (String.mk ((c :: rest).take pdIdLen))
    else findPdId rest

/-- Scan of the list-payees response (index.mjs lines 138-151): the first
artifact named response with truthy content whose text matches the payee
identifier pattern yields that identifier; the loop breaks on the first
match. -/
def payeeListScan : List Artifact → Option String
  | [] => none
  | a :: rest =>
    if a.name == some "response" && hasContent a then
      match findPdId (contentStr a).data with
      | some id => some id
      | none => payeeListScan rest
    else payeeListScan rest

/-- Payee identifier extracted from the list-payees response, including
the artifacts guard. -/
def payeeFromList : Option (List Artifact) → Option String
  | none => none
  | some arts => payeeListScan arts

/-- Suffix of the text starting at the first occurrence of the pd- lead;
embeds content.indexOf and the substring from that index (index.mjs lines
166-169). -/
def suffixFromPd : List Char → Option (List Char)
  | [] => none
  | c :: rest =>
    if leadsWith ['p', 'd', '-'] (c :: rest) then some (c :: rest)
    else suffixFromPd rest

/-- Fallback looser pattern of index.mjs line 177, anchored at the start
of the suffix: the pd- lead followed by one or more hex digits or dashes. -/
def simplePdMatch : List Char → Option String
  | 'p' :: 'd' :: '-' :: rest =>
    match rest.takeWhile (fun c => isHexDigit c || c == '-') with
    | [] => none
    | run => some (String.mk ('p' :: 'd' :: '-' :: run))
  | _ => none

/-- Fold step over the create-payee response artifacts (index.mjs lines
161-186): an artifact named response with truthy content containing the
pd- lead overwrites the current identifier with the strict-pattern match
from the first pd- position, or with the looser anchored match; the loop
has no break, so a later matching artifact wins. -/
def payeeFromCreateStep (cur : Option String) (a : Artifact) : Option String :=
  if a.name == some "response" && hasContent a then
    match suffixFromPd (contentStr a).data with
    | none => cur
    | some sfx =>
      match findPdId sfx with
      | some id => some id
      | none =>
        match simplePdMatch sfx with
        | some id => some id
        | none => cur
  else cur

/-- Payee identifier extracted from the create-payee response. -/
def payeeFromCreate : Option (List Artifact) → Option String
  | none => none
  | some arts => arts.foldl payeeFromCreateStep none

/-- Embedding of the needsPayeeId computation (index.mjs lines 107-128):
true by default; when the collaborator check succeeded it is the negation
of the reported link flag.  The checkResult argument is none when the
check was skipped or failed, some hasLink when it responded. -/
def needsPayeeId : Option Bool → Bool
  | none => true
  | some hasLink => !hasLink

/-- Embedding of the payee-resolution section of the OAuth exchange
(index.mjs lines 130-195), returning the resolved identifier and the
number of payee-related provider calls issued (the list-payees ask and the
create-payee ask): when the link check reports a link the whole block is
skipped; otherwise the list call is made, and the create call follows only
when no identifier was found in the list response. -/
def resolvePayee (checkResult : Option Bool)
    (listResp createResp : Option (List Artifact)) : Option String × Nat :=
  if needsPayeeId checkResult then
    match payeeFromList listResp with
    | some id => (some id, 1)
    | none => (payeeFromCreate createResp, 2)
  else (none, 0)

/-! ## C8: payee resolution is idempotent -/

/-- C8: when the existing-link check reports the link present, the payee
resolution issues zero provider list-payees or create-payee calls,
whatever the provider would have answered. -/
theorem c8_payee_idempotent (listResp createResp : Option (List Artifact)) :
    resolvePayee (some true) listResp createResp = (none, 0) := rfl

/-! ## OAuth code exchange (index.mjs lines 61-102) -/

/-- Embedding of the structured token endpoint response; accessToken is
the raw field with the empty string modelling a falsy value. -/
structure ProviderTokenResponse where
  accessToken : String
  expiresIn : Nat
  paymanUserId : Option String
deriving DecidableEq

/-- Outcome of the OAuth exchange handler up to token acquisition:
badRequest is the HTTP 400 rejection, serverError the HTTP 500 provider
failure, ok the successful session with its access token. -/
inductive ExchangeOutcome
  | badRequest
  | serverError
  | ok (accessToken : String)
deriving DecidableEq

/-- Embedding of the oauth/exchange handler validation and token exchange
(index.mjs lines 61-102): a falsy code is rejected with 400 before any
provider call; a provider rejection (thrown error, caught at line 209) or
a response without a truthy accessToken yields 500; otherwise the session
carries the provider access token.  The provider argument is the result
the provider token endpoint would give: error for a rejection, ok none for
a null response, ok (some tr) for a response object. -/
def oauthExchange (code : Option String)
    (provider : Except Unit (Option ProviderTokenResponse)) : ExchangeOutcome :=
  if jsFalsy code then .badRequest
  else
    match provider with
    | .error _ => .serverError
    | .ok none => .serverError
    | .ok (some tr) =>
      if tr.accessToken == "" then .serverError else .ok tr.accessToken

/-- Reduction of the exchange once the code is known to be present and
non-empty. -/
theorem oauthExchange_of_code (code : Option String)
    (prov : Except Unit (Option ProviderTokenResponse)) (hc : jsFalsy code = false) :
    oauthExchange code prov =
      (match prov with
       | .error _ => ExchangeOutcome.serverError
       | .ok none => ExchangeOutcome.serverError
       | .ok (some tr) =>
         if tr.accessToken == "" then ExchangeOutcome.serverError
         else ExchangeOutcome.ok tr.accessToken) := by
  simp [oauthExchange, hc]

/-! ## C9: OAuth exchange error classification -/

/-- C9: the exchange rejects with 400 exactly when the code is absent or
empty; with a present, non-empty code it fails with 500 exactly when the
provider rejects the code or returns no truthy access token; otherwise it
returns the session with the non-empty provider access token. -/
theorem c9_exchange_errors (code : Option String)
    (provider : Except Unit (Option ProviderTokenResponse)) :
    (oauthExchange code provider = .badRequest ↔ jsFalsy code = true)
    ∧ (jsFalsy code = false →
        (oauthExchange code provider = .serverError ↔
          provider = .error () ∨ provider = .ok none ∨
          ∃ tr, provider = .ok (some tr) ∧ tr.accessToken = ""))
    ∧ (∀ tr, jsFalsy code = false → provider = .ok (some tr) →
        tr.accessToken ≠ "" →
        oauthExchange code provider = .ok tr.accessToken ∧ tr.accessToken ≠ "") := by
  refine ⟨?_, ?_, ?_⟩
  · cases hc : jsFalsy code with
    | true => simp [oauthExchange, hc]
    | false =>
      simp only [oauthExchange, hc, if_false, Bool.false_eq_true, iff_false]
      rcases provider with e | tr
      · simp
      · rcases tr with _ | tr
        · simp
        · by_cases ht : tr.accessToken == ""
          · simp [ht]
          · simp [ht]
  · intro hc
    rw [oauthExchange_of_code code provider hc]
    rcases provider with e | otr
    · cases e
      simp
    · rcases otr with _ | tr
      · simp
      · by_cases ht : tr.accessToken = ""
        · simp [ht]
        · simp [ht]
  · intro tr hc hp ht
    subst hp
    rw [oauthExchange_of_code code (Except.ok (some tr)) hc]
    exact ⟨by simp [ht], ht⟩

/-- C9 witness: a well-formed code against a provider returning a token
yields the session with that token. -/
theorem c9_witness :
    oauthExchange (some "auth-code")
        (Except.ok (some ⟨"token-value", 3600, none⟩)) = .ok "token-value" ∧
    "token-value" ≠ "" :=
  (c9_exchange_errors (some "auth-code")
      (Except.ok (some ⟨"token-value", 3600, none⟩))).2.2
    ⟨"token-value", 3600, none⟩ (by decide) rfl (by decide)

/-! ## Charge handler validation and credential selection
(index.mjs lines 263-300) -/

/-- Embedding of the charge request body fields; each is an optional
string, with none for an absent field and the empty string falsy. -/
structure ChargeRequest where
  accessToken : Option String
  amount : Option String
  description : Option String
  userId : Option String
deriving DecidableEq

/-- Action taken by the charge handler before the provider call:
badRequest is the 400 validation rejection, payeeNotConfigured and
tokenUnavailable the 500 configuration and token failures, issue the
provider ask carrying the credential the client is built with and the
exact command string. -/
inductive ChargeAction
  | badRequest
  | payeeNotConfigured
  | tokenUnavailable
  | issue (credential : String) (command : String)
deriving DecidableEq

/-- Rendering of an optional field inside a JS template literal: an absent
value prints as the text undefined. -/
def jsShow : Option String → String
  | none => "undefined"
  | some s => s

/-- The exact command template of index.mjs line 297. -/
def chargeCommand (amount userId payee description : String) : String :=
  "send $" ++ amount ++ " from wallet " ++ userId ++ " to payee " ++ payee ++
    " for \"" ++ description ++ "\""

/-- Embedding of the charge handler up to the provider ask (index.mjs
lines 263-300): validation rejects when amount or userId is falsy — the
request accessToken is destructured but never checked; then the configured
app payee identifier and the token-manager app token are required; the
client is built with the app token, never with the request accessToken. -/
def chargeHandler (req : ChargeRequest) (appPayeeId appToken : Option String) :
    ChargeAction :=
  if jsFalsy req.amount || jsFalsy req.userId then .badRequest
  else if jsFalsy appPayeeId then .payeeNotConfigured
  else if jsFalsy appToken then .tokenUnavailable
  else .issue (appToken.getD "")
    (chargeCommand (jsShow req.amount) (jsShow req.userId)
      (appPayeeId.getD "") (jsShow req.description))

/-! ## C10: charge validation and credential selection -/

/-- C10: the charge validation rejects exactly the requests with a falsy
amount or userId — a request without an accessToken passes validation;
the handler result does not depend on the request accessToken at all; and
whenever the provider command is issued, the credential it is issued under
is the token-manager app token. -/
theorem c10_charge_credentials (req : ChargeRequest)
    (appPayeeId appToken : Option String) :
    (chargeHandler req appPayeeId appToken = .badRequest ↔
      (jsFalsy req.amount || jsFalsy req.userId) = true)
    ∧ (∀ x, chargeHandler { req with accessToken := x } appPayeeId appToken
        = chargeHandler req appPayeeId appToken)
    ∧ (∀ cred cmd, chargeHandler req appPayeeId appToken = .issue cred cmd →
        appToken = some cred) := by
  refine ⟨?_, fun x => rfl, ?_⟩
  · cases hv : (jsFalsy req.amount || jsFalsy req.userId) with
    | true => simp [chargeHandler, hv]
    | false =>
      simp only [chargeHandler, hv, Bool.false_eq_true, if_false]
      by_cases hp : jsFalsy appPayeeId = true
      · simp [hp]
      · simp only [Bool.not_eq_true] at hp
        by_cases htk : jsFalsy appToken = true
        · simp [hp, htk]
        · simp only [Bool.not_eq_true] at htk
          simp [hp, htk]
  · intro cred cmd h
    simp only [chargeHandler] at h
    by_cases hv : (jsFalsy req.amount || jsFalsy req.userId) = true
    · simp [hv] at h
    · simp only [Bool.not_eq_true] at hv
      by_cases hp : jsFalsy appPayeeId = true
      · simp [hv, hp] at h
      · simp only [Bool.not_eq_true] at hp
        by_cases htk : jsFalsy appToken = true
        · simp [hv, hp, htk] at h
        · simp only [Bool.not_eq_true] at htk
          simp only [hv, hp, htk, Bool.false_eq_true, if_false,
            ChargeAction.issue.injEq] at h
          cases appToken with
          | none => simp [jsFalsy] at htk
          | some t =>
            simp only [Option.getD_some] at h
            rw [h.1]

/-- C10 witness: a request carrying no accessToken but a present amount
and userId is not rejected, and the issued command is run under the
token-manager app token. -/
theorem c10_witness :
    chargeHandler ⟨none, some "5", some "attempt fee", some "wallet-1"⟩
        (some "pd-app") (some "app-tok")
      = .issue "app-tok" (chargeCommand "5" "wallet-1" "pd-app" "attempt fee") ∧
    (some "app-tok" : Option String) = some "app-tok" :=
  ⟨rfl,
   (c10_charge_credentials ⟨none, some "5", some "attempt fee", some "wallet-1"⟩
       (some "pd-app") (some "app-tok")).2.2 "app-tok"
     (chargeCommand "5" "wallet-1" "pd-app" "attempt fee") rfl⟩

/-! ## Concurrency model of getToken and refreshToken
(tokenManager.mjs lines 82-137)

The source runs on a single-threaded cooperative event loop; the only
suspension points are the awaits (the provider token call, the token-file
write, the polling interval, and task resumptions).  Two concurrent
getToken callers A and B are modelled as two tasks, each an explicit
program counter over the maximal synchronous runs between awaits:

* start: getToken checks shouldRefreshToken and, inside refreshToken, the
  refreshing flag; no await separates these, so the check, setting the
  flag, and starting the provider call are one atomic step (lines 82-104
  up to getAccessToken, with lines 132-136 of getToken).  When the flag is
  already set the task moves to waiting (lines 83-92); when no refresh is
  due, getToken returns tokenData?.accessToken at once (line 136).
* awaitProvider: the provider call resolves; on success tokenData is
  replaced and the file write starts (lines 110-120); on failure the catch
  clears the flag and rethrows, rejecting the getToken of this task
  (lines 125-129).
* awaitSave: the file write resolves; the flag is cleared and refreshToken
  returns (lines 122-124).
* resuming: the getToken of this task resumes and reads the shared
  tokenData?.accessToken (line 136).
* waiting: the 500 ms poll fires; it only completes once the flag is
  clear (lines 85-92), after which the getToken of this task resumes.
-/

/-- Program counter of one modelled getToken task. -/
inductive TaskPc
  | start
  | awaitProvider
  | awaitSave
  | resuming
  | waiting
  | done
deriving DecidableEq

/-- Result observed by one getToken caller: error models a rejected
promise, ok v a return of tokenData?.accessToken where none models an
undefined read from an absent record. -/
abbrev TaskResult := Except Unit (Option String)

instance : DecidableEq TaskResult
  | .error a, .error b => isTrue (by cases a; cases b; rfl)
  | .error _, .ok _ => isFalse (fun h => Except.noConfusion h)
  | .ok _, .error _ => isFalse (fun h => Except.noConfusion h)
  | .ok a, .ok b =>
    if h : a = b then isTrue (by rw [h])
    else isFalse (fun hh => h (Except.ok.inj hh))

/-- Shared state of the token manager plus the two task states; the
providerCalls counter counts provider token-acquisition calls issued. -/
structure Sys where
  refreshing : Bool
  tokenData : Option TokenData
  providerCalls : Nat
  pcA : TaskPc
  pcB : TaskPc
  resA : Option TaskResult
  resB : Option TaskResult
deriving DecidableEq

/-- Frozen current time of the scenario, in ms. -/
def nowT : Nat := 10000000

/-- The stored token at scenario start: already expired (its expiry is
before nowT), so any getToken finds a refresh due. -/
def oldToken : TokenData :=
  { accessToken := "stale-token", expiresIn := 3600,
    expiresAt := 9000000, refreshedAt := 5000000 }

/-- The token produced by a successful refresh at nowT with the provider
reporting a 3600 second lifetime. -/
def newToken : TokenData := mkRefreshedToken "fresh-token" 3600 nowT

/-- Access token read from the shared record (tokenData?.accessToken). -/
def tokenValue (td : Option TokenData) : Option String :=
  td.map (fun t => t.accessToken)

/-- One atomic step of the designated task (isA selects caller A), given
whether the provider call will succeed; none when the task cannot move. -/
def stepTask (provOk : Bool) (s : Sys) (isA : Bool) : Option Sys :=
  let pc := if isA then s.pcA else s.pcB
  let setPc := fun (s' : Sys) (p : TaskPc) =>
    if isA then { s' with pcA := p } else { s' with pcB := p }
  let setRes := fun (s' : Sys) (r : TaskResult) =>
    if isA then { s' with resA := some r } else { s' with resB := some r }
  match pc with
  | .start =>
    if shouldRefreshToken s.tokenData nowT then
      if s.refreshing then some (setPc s .waiting)
      else some (setPc
        { s with refreshing := true, providerCalls := s.providerCalls + 1 }
        .awaitProvider)
    else some (setPc (setRes s (.ok (tokenValue s.tokenData))) .done)
  | .awaitProvider =>
    if provOk then some (setPc { s with tokenData := some newToken } .awaitSave)
    else some (setPc (setRes { s with refreshing := false } (.error ())) .done)
  | .awaitSave => some (setPc { s with refreshing := false } .resuming)
  | .resuming => some (setPc (setRes s (.ok (tokenValue s.tokenData))) .done)
  | .waiting => if s.refreshing then none else some (setPc s .resuming)
  | .done => none

/-- All successor states of a system state under either task. -/
def sysSuccs (provOk : Bool) (s : Sys) : List Sys :=
  (match stepTask provOk s true with | some t => [t] | none => []) ++
  (match stepTask provOk s false with | some t => [t] | none => [])

/-- Initial state: expired stored token, flag clear, both callers about to
run getToken. -/
def sysInit : Sys :=
  { refreshing := false, tokenData := some oldToken, providerCalls := 0,
    pcA := .start, pcB := .start, resA := none, resB := none }

/-- Reachability under an arbitrary interleaving of the two tasks. -/
inductive SysReach (provOk : Bool) : Sys → Prop
  | init : SysReach provOk sysInit
  | step {s t : Sys} : SysReach provOk s → t ∈ sysSuccs provOk s →
      SysReach provOk t

/-- One expansion round of the reachable-state closure. -/
def sysExpand (provOk : Bool) (l : List Sys) : List Sys :=
  (l ++ l.flatMap (sysSuccs provOk)).dedup

/-- Closure of the reachable states, computed by iterated expansion;
twelve rounds exceed the longest execution. -/
def sysClosure (provOk : Bool) : List Sys :=
  Nat.iterate (sysExpand provOk) 12 [sysInit]

/-- The computed closure is closed under successors. -/
theorem sysClosure_closed : ∀ provOk : Bool, ∀ s ∈ sysClosure provOk,
    ∀ t ∈ sysSuccs provOk s, t ∈ sysClosure provOk := by decide

/-- The initial state is in the computed closure. -/
theorem sysInit_mem_closure : ∀ provOk : Bool, sysInit ∈ sysClosure provOk := by
  decide

/-- Every reachable state is in the computed closure. -/
theorem sysReach_mem_closure {provOk : Bool} {s : Sys}
    (h : SysReach provOk s) : s ∈ sysClosure provOk := by
  induction h with
  | init => exact sysInit_mem_closure provOk
  | step _ hmem ih => exact sysClosure_closed provOk _ ih _ hmem

/-! ## C3: single-flight refresh under concurrency -/

/-- C3: in every interleaving of two concurrent getToken callers starting
with an expired stored token, once both callers have finished (with the
provider refresh succeeding), exactly one provider token-acquisition call
was issued, and both callers returned the same fresh token value read from
the shared record. -/
theorem c3_single_refresh (s : Sys) (h : SysReach true s)
    (hA : s.pcA = .done) (hB : s.pcB = .done) :
    s.providerCalls = 1 ∧ s.resA = some (.ok (some "fresh-token")) ∧
      s.resB = s.resA := by
  have hmem := sysReach_mem_closure h
  have key : ∀ x ∈ sysClosure true, x.pcA = .done → x.pcB = .done →
      x.providerCalls = 1 ∧ x.resA = some (.ok (some "fresh-token")) ∧
        x.resB = x.resA := by decide
  exact key s hmem hA hB

/-- Final state of the execution where caller A performs the whole refresh
and caller B starts afterwards. -/
def c3Final : Sys :=
  { refreshing := false, tokenData := some newToken, providerCalls := 1,
    pcA := .done, pcB := .done,
    resA := some (.ok (some "fresh-token")),
    resB := some (.ok (some "fresh-token")) }

/-- C3 witness: an explicit completed execution reaching c3Final, to which
the single-flight theorem applies. -/
theorem c3_witness :
    c3Final.providerCalls = 1 ∧
    c3Final.resA = some (.ok (some "fresh-token")) ∧
    c3Final.resB = c3Final.resA := by
  have h1 : SysReach true
      { refreshing := true, tokenData := some oldToken, providerCalls := 1,
        pcA := .awaitProvider, pcB := .start, resA := none, resB := none } :=
    SysReach.step SysReach.init (by decide)
  have h2 : SysReach true
      { refreshing := true, tokenData := some newToken, providerCalls := 1,
        pcA := .awaitSave, pcB := .start, resA := none, resB := none } :=
    SysReach.step h1 (by decide)
  have h3 : SysReach true
      { refreshing := false, tokenData := some newToken, providerCalls := 1,
        pcA := .resuming, pcB := .start, resA := none, resB := none } :=
    SysReach.step h2 (by decide)
  have h4 : SysReach true
      { refreshing := false, tokenData := some newToken, providerCalls := 1,
        pcA := .done, pcB := .start,
        resA := some (.ok (some "fresh-token")), resB := none } :=
    SysReach.step h3 (by decide)
  have h5 : SysReach true c3Final := SysReach.step h4 (by decide)
  exact c3_single_refresh c3Final h5 rfl rfl

/-! ## C4: a waiting caller observes a failed refresh as a stale token -/

/-- Final state of the execution where caller A starts the refresh, caller
B finds the refreshing flag set and waits, the provider call fails, and B
then resumes and reads the untouched record. -/
def c4Final : Sys :=
  { refreshing := false, tokenData := some oldToken, providerCalls := 1,
    pcA := .done, pcB := .done,
    resA := some (.error ()),
    resB := some (.ok (some "stale-token")) }

/-- C4: the claim says every getToken caller sees a failed refresh as an
error and never receives an expired token; but in the execution reaching
c4Final the waiting caller B resolves once the failed refresh clears the
flag and getToken returns the stale, already expired access token instead
of an error, while only the caller that ran the refresh (A) rejects. -/
theorem c4_waiter_gets_stale_token :
    SysReach false c4Final ∧
    c4Final.resB = some (.ok (some "stale-token")) ∧
    oldToken.accessToken = "stale-token" ∧
    oldToken.expiresAt < nowT := by
  refine ⟨?_, rfl, rfl, by decide⟩
  have h1 : SysReach false
      { refreshing := true, tokenData := some oldToken, providerCalls := 1,
        pcA := .awaitProvider, pcB := .start, resA := none, resB := none } :=
    SysReach.step SysReach.init (by decide)
  have h2 : SysReach false
      { refreshing := true, tokenData := some oldToken, providerCalls := 1,
        pcA := .awaitProvider, pcB := .waiting, resA := none, resB := none } :=
    SysReach.step h1 (by decide)
  have h3 : SysReach false
      { refreshing := false, tokenData := some oldToken, providerCalls := 1,
        pcA := .done, pcB := .waiting,
        resA := some (.error ()), resB := none } :=
    SysReach.step h2 (by decide)
  have h4 : SysReach false
      { refreshing := false, tokenData := some oldToken, providerCalls := 1,
        pcA := .done, pcB := .resuming,
        resA := some (.error ()), resB := none } :=
    SysReach.step h3 (by decide)
  exact SysReach.step h4 (by decide)
